import Mathlib

/-!
Verification of `pterodactyl/lan_broadcast_fix.py`, a LAN-discovery relay that
answers Minecraft Bedrock (RakNet) unconnected-ping broadcasts on behalf of
several aliased server addresses.

Modelling conventions:
* Python `bytes` values are `List Nat` (each element a byte value).
* Python `str` values are `List Char` (a Python string is a sequence of code
  points); `PyStr` abbreviates this.
* Python `None`-or-value results are `Option`.
* The network, the random GUID generator and the per-reply socket bind are an
  explicit environment (`ProbeOutcome`, `Env`): the code's only interactions
  with the outside world.
* Statements that in Python may raise are modelled in `Except`, with the
  `try/except` blocks of the source translated to explicit handlers.
-/

namespace LanFix

abbrev PyStr := List Char

/-- `BROADCAST_PORT = 19132`. -/
def BROADCAST_PORT : Nat := 19132

/-- `UNCONNECTED_PING_ID = 0x01`. -/
def UNCONNECTED_PING_ID : Nat := 0x01

/-- `UNCONNECTED_PONG_ID = 0x1C`. -/
def UNCONNECTED_PONG_ID : Nat := 0x1C

/-- `bytes.fromhex("00ffff00fefefefefdfdfdfd12345678")`, the RakNet offline
message magic. -/
def magicBytes : List Nat :=
  [0x00, 0xff, 0xff, 0x00, 0xfe, 0xfe, 0xfe, 0xfe,
   0xfd, 0xfd, 0xfd, 0xfd, 0x12, 0x34, 0x56, 0x78]

/-- Python `n.to_bytes(k, byteorder='big')`, big-endian, most significant byte
first.  Python raises `OverflowError` when `n ≥ 256 ^ k`; the script only
applies it within range (`random.getrandbits(64)` for `k = 8`, a short MOTD
length for `k = 2`), and every theorem below stays within that range, so the
model reduces modulo `256 ^ k`. -/
def toBytesBE : Nat → Nat → List Nat
  | 0, _ => []
  | k + 1, n => n / 256 ^ k % 256 :: toBytesBE k n

/-- Python `int.from_bytes(bs, byteorder='big')` (defined for any length,
including the empty slice, which gives 0). -/
def fromBytesBE (bs : List Nat) : Nat :=
  bs.foldl (fun a b => a * 256 + b) 0

/-- UTF-8 encoding of one code point (RFC 3629).  Models CPython's
`str.encode('utf-8')` for the scalar values a `Char` can hold. -/
def utf8EncodeCharBytes (c : Char) : List Nat :=
  let n := c.toNat
  if n < 0x80 then [n]
  else if n < 0x800 then [0xC0 + n / 64, 0x80 + n % 64]
  else if n < 0x10000 then [0xE0 + n / 4096, 0x80 + n / 64 % 64, 0x80 + n % 64]
  else [0xF0 + n / 262144, 0x80 + n / 4096 % 64, 0x80 + n / 64 % 64, 0x80 + n % 64]

/-- Python `s.encode('utf-8')`. -/
def utf8Encode (s : PyStr) : List Nat :=
  (s.map utf8EncodeCharBytes).flatten

/-- Strict UTF-8 decoding, models CPython `bytes.decode('utf-8')`: rejects
stray continuation bytes, overlong forms (`C0`/`C1` leads, `E0`/`F0` with a
low second byte), surrogate code points (`ED A0..BF`), values above
`U+10FFFF` (`F4` with a high second byte, leads `F5..FF`), and truncated
sequences.  `none` models the `UnicodeDecodeError` CPython raises. -/
def utf8Decode : List Nat → Option PyStr
  | [] => some []
  | b :: rest =>
    if b < 0x80 then
      (utf8Decode rest).map (fun s => Char.ofNat b :: s)
    else if b < 0xC2 then none
    else if b < 0xE0 then
      match rest with
      | b2 :: rest2 =>
        if 0x80 ≤ b2 ∧ b2 < 0xC0 then
          (utf8Decode rest2).map (fun s => Char.ofNat ((b - 0xC0) * 64 + (b2 - 0x80)) :: s)
        else none
      | [] => none
    else if b < 0xF0 then
      match rest with
      | b2 :: b3 :: rest3 =>
        let lo2 := if b = 0xE0 then 0xA0 else 0x80
        let hi2 := if b = 0xED then 0x9F else 0xBF
        if lo2 ≤ b2 ∧ b2 ≤ hi2 ∧ 0x80 ≤ b3 ∧ b3 < 0xC0 then
          (utf8Decode rest3).map
            (fun s => Char.ofNat ((b - 0xE0) * 4096 + (b2 - 0x80) * 64 + (b3 - 0x80)) :: s)
        else none
      | _ => none
    else if b < 0xF5 then
      match rest with
      | b2 :: b3 :: b4 :: rest4 =>
        let lo2 := if b = 0xF0 then 0x90 else 0x80
        let hi2 := if b = 0xF4 then 0x8F else 0xBF
        if lo2 ≤ b2 ∧ b2 ≤ hi2 ∧ 0x80 ≤ b3 ∧ b3 < 0xC0 ∧ 0x80 ≤ b4 ∧ b4 < 0xC0 then
          (utf8Decode rest4).map
            (fun s => Char.ofNat ((b - 0xF0) * 262144 + (b2 - 0x80) * 4096
                                  + (b3 - 0x80) * 64 + (b4 - 0x80)) :: s)
        else none
      | _ => none
    else none

/-- Decimal rendering of a natural number, Python `str(n)` / f-string
interpolation of an `int`. -/
def natToPyStr (n : Nat) : PyStr := Nat.toDigits 10 n

/-! ## Interface Resolver: `get_local_interfaces_ips` -/

/-- The literal pattern of `grep 'inet 192.168.71.'` in
`get_local_interfaces_ips`. -/
def SUBNET_PATTERN : PyStr := "inet 192.168.71.".data

/-- Whether `pat` occurs as a contiguous subsequence of `s`: what
`grep 'pat'` tests on one line. -/
def containsPattern (pat : PyStr) : PyStr → Bool
  | [] => pat.isEmpty
  | c :: rest => pat.isPrefixOf (c :: rest) || containsPattern pat rest

/-- Python `line.strip().split()`: split on runs of whitespace, dropping
empty fields. -/
def pySplitAux : List Char → List Char → List PyStr
  | [], cur => if cur.isEmpty then [] else [cur.reverse]
  | c :: rest, cur =>
    if c.isWhitespace then
      if cur.isEmpty then pySplitAux rest [] else cur.reverse :: pySplitAux rest []
    else pySplitAux rest (c :: cur)

def pySplit (s : PyStr) : List PyStr := pySplitAux s []

/-- Python `ip_cidr.split('/')[0]`: the text before the first `/`. -/
def beforeSlash (s : PyStr) : PyStr := s.takeWhile (fun c => c ≠ '/')

/-- Outcome of the shell pipeline
`ip -4 addr show | grep 'inet 192.168.71.'` run via
`subprocess.check_output`: either the collaborator is unavailable (the
command cannot run, or `grep` matches nothing so the pipeline exits
non-zero and `check_output` raises `CalledProcessError`), or it yields the
lines of `ip -4 addr show` output, which the pipeline filters. -/
inductive IfaceOutcome where
  | unavailable : IfaceOutcome
  | output : List PyStr → IfaceOutcome
deriving DecidableEq

/-- One iteration of the `for line in result.splitlines()` body: parse one
grep-matched line, appending the address when the line has at least two
whitespace-separated fields. -/
def parseIfaceLine (ips : List PyStr) (line : PyStr) : List PyStr :=
  let parts := pySplit line
  if parts.length ≥ 2 then
    let ip_cidr := (parts.get? 1).getD []
    ips ++ [beforeSlash ip_cidr]
  else ips

/-- `get_local_interfaces_ips()`.  On any exception (collaborator
unavailable, or `grep` matching no line so `check_output` raises) the
`except` clause prints and the function returns the list built so far,
which is empty because the exception precedes any append. -/
def get_local_interfaces_ips (o : IfaceOutcome) : List PyStr :=
  match o with
  | .unavailable => []
  | .output lines =>
    let matched := lines.filter (fun l => containsPattern SUBNET_PATTERN l)
    if matched.isEmpty then []
    else matched.foldl parseIfaceLine []

/-! ## Packet Codec: `create_pong_packet` -/

/-- The generic MOTD built when `create_pong_packet` receives a falsy
`motd`:
`f"MCPE;Bedrock Server;589;1.20.0;0;10;{server_guid};Bedrock Level;Survival;1;{server_port};{server_port+1};"`. -/
def genericMotd (server_guid server_port : Nat) : PyStr :=
  "MCPE;Bedrock Server;589;1.20.0;0;10;".data
    ++ natToPyStr server_guid
    ++ ";Bedrock Level;Survival;1;".data
    ++ natToPyStr server_port
    ++ ";".data
    ++ natToPyStr (server_port + 1)
    ++ ";".data

/-- The 8-byte "Ping ID (Time)" field of the pong: bytes 1..8 of the
received ping payload when it has at least 9 bytes, else
`(0).to_bytes(8, byteorder='big')`. -/
def pongPingId (ping_payload : List Nat) : List Nat :=
  if ping_payload.length ≥ 9 then (ping_payload.drop 1).take 8
  else toBytesBE 8 0

/-- The MOTD actually emitted: `if not motd:` replaces a falsy `motd`
(`None` or the empty string) with the generic MOTD. -/
def pongMotd (motd : Option PyStr) (server_guid server_port : Nat) : PyStr :=
  match motd with
  | none => genericMotd server_guid server_port
  | some s => if s.isEmpty then genericMotd server_guid server_port else s

/-- `create_pong_packet(ping_payload, motd, server_port=19132)`.
`motd : Option PyStr` models the `None`-or-`str` argument; `server_guid`
models `random.getrandbits(64)` (always `< 2^64`), supplied by the caller's
environment.  Mirrors the source: pong id, then the 8-byte ping time, the
GUID, the magic, and a 2-byte big-endian length followed by the UTF-8
MOTD. -/
def create_pong_packet (ping_payload : List Nat) (motd : Option PyStr)
    (server_guid : Nat) (server_port : Nat) : List Nat :=
  let motd_bytes := utf8Encode (pongMotd motd server_guid server_port)
  UNCONNECTED_PONG_ID :: pongPingId ping_payload ++ toBytesBE 8 server_guid
    ++ magicBytes ++ toBytesBE 2 motd_bytes.length ++ motd_bytes

/-! ## Backend Prober: `query_local_server` -/

/-- What the network does to one probe: the send or receive raises an OS
error, the 0.2s receive times out (`socket.timeout`), or a datagram
arrives. -/
inductive ProbeOutcome where
  | transportError : ProbeOutcome
  | timeout : ProbeOutcome
  | reply : List Nat → ProbeOutcome
deriving DecidableEq

/-- The `try` body of `query_local_server` after the probe ping is sent:
receive, and if the datagram is a pong longer than the 33-byte header,
decode its length-prefixed MOTD.  `Except` carries the exceptions the body
can raise (`socket.timeout`, OS errors, `UnicodeDecodeError`); falling off
the parse without returning yields `ok none` (the function's final
`return None`). -/
def queryBody (o : ProbeOutcome) : Except Unit (Option PyStr) :=
  match o with
  | .transportError => .error ()
  | .timeout => .error ()
  | .reply data =>
    if data.isEmpty = false ∧ data.headD 0 = UNCONNECTED_PONG_ID then
      let offset := 33
      if data.length > offset then
        let str_len := fromBytesBE ((data.drop offset).take 2)
        match utf8Decode ((data.drop (offset + 2)).take str_len) with
        | some motd => .ok (some motd)
        | none => .error ()
      else .ok none
    else .ok none

/-- `query_local_server(ip, port=19132)`.  The first component is the
returned MOTD (`None` on the fall-through and on every caught exception);
the second records whether the socket was closed, which the `finally`
block makes unconditional on every exit path. -/
def query_local_server (o : ProbeOutcome) : Option PyStr × Bool :=
  match queryBody o with
  | .ok r => (r, true)
  | .error _ => (none, true)

/-! ## Discovery Listener: the datagram handler inside `main`'s loop -/

/-- One spoofed reply: the datagram sent by the short-lived socket bound to
`(sourceIp, BROADCAST_PORT)` towards the pinging client. -/
structure Reply where
  sourceIp : PyStr
  sourcePort : Nat
  destIp : PyStr
  destPort : Nat
  packet : List Nat
deriving DecidableEq

/-- The environment of one datagram-handling cycle: per-candidate probe
outcome, per-candidate fresh `random.getrandbits(64)` GUID, and whether the
per-candidate reply socket's `bind((server_ip, 19132))`/`sendto` sequence
succeeds. -/
structure Env where
  probe : PyStr → ProbeOutcome
  guidOf : PyStr → Nat
  replyBindOk : PyStr → Bool

/-- Python `l[i]`, raising `IndexError` out of range. -/
def pyIndex (l : List Nat) (i : Nat) : Except Unit Nat :=
  match l.get? i with
  | some b => .ok b
  | none => .error ()

/-- The `for server_ip in ips_to_announce` body: probe the candidate; on a
truthy MOTD build the pong and, when the reply socket's bind and send
succeed, emit it (a bind/send failure is caught by the inner
`try/except`, printed, and skipped). -/
def handleCandidate (env : Env) (data : List Nat) (clientIp : PyStr)
    (clientPort : Nat) (acc : List Reply) (server_ip : PyStr) : List Reply :=
  match (query_local_server (env.probe server_ip)).1 with
  | some real_motd =>
    if real_motd.isEmpty then acc
    else if env.replyBindOk server_ip then
      acc ++ [{ sourceIp := server_ip, sourcePort := BROADCAST_PORT,
                destIp := clientIp, destPort := clientPort,
                packet := create_pong_packet data (some real_motd)
                            (env.guidOf server_ip) 19132 }]
    else acc
  | none => acc

/-- The body of the listener loop's `try` block for one received datagram
`(data, (clientIp, clientPort))`.  `Except` carries any exception the body
could raise; the only indexing, `data[0]`, is guarded by the short-circuit
truthiness test so the body in fact always returns.  Replies are
accumulated in candidate order. -/
def handleDatagramE (ips : List PyStr) (env : Env) (data : List Nat)
    (clientIp : PyStr) (clientPort : Nat) : Except Unit (List Reply) :=
  if data.isEmpty = false ∧ data.length > 0 then
    match pyIndex data 0 with
    | .error e => .error e
    | .ok b0 =>
      if b0 = 0x01 ∨ b0 = 0x02 then
        if ips.contains clientIp || List.isPrefixOf "127.".data clientIp then
          .ok []
        else
          .ok (ips.foldl (handleCandidate env data clientIp clientPort) [])
      else .ok []
  else .ok []

/-- One datagram's handling as the listener loop sees it: the `except
Exception` clause demotes any exception to a printed message and an empty
reply set, and the loop continues. -/
def handleDatagram (ips : List PyStr) (env : Env) (data : List Nat)
    (clientIp : PyStr) (clientPort : Nat) : List Reply :=
  match handleDatagramE ips env data clientIp clientPort with
  | .ok rs => rs
  | .error _ => []

/-! ## Resilience behaviour: `main`'s startup and listener loop -/

/-- What `main` does before the loop, as observable control flow: resolve
the candidate list (explicit `TARGET_IPS` when non-empty, else the
Interface Resolver), then `sys.exit(1)` when it is empty; then bind the
shared socket, and `sys.exit(1)` when the bind raises. -/
inductive StartupResult where
  | exited : Nat → StartupResult
  | listening : List PyStr → StartupResult
deriving DecidableEq

/-- The candidate list `ips_to_announce` after step 1 of `main`. -/
def resolveIps (targetIps : List PyStr) (ifo : IfaceOutcome) : List PyStr :=
  if targetIps.isEmpty then get_local_interfaces_ips ifo else targetIps

/-- `main`'s startup: detection, the empty-list check, and the bind
attempt.  `bindOk` tells whether `listener.bind(('0.0.0.0', 19132))`
succeeds. -/
def mainStartup (targetIps : List PyStr) (ifo : IfaceOutcome)
    (bindOk : Bool) : StartupResult :=
  let ips := resolveIps targetIps ifo
  if ips.isEmpty then .exited 1
  else if bindOk then .listening ips
  else .exited 1

/-- One event delivered to the blocked `listener.recvfrom(4096)`. -/
inductive Event where
  | datagram : List Nat → PyStr → Nat → Event
  | recvError : Event
  | keyboardInterrupt : Event

/-- The `while True` listener loop over a finite schedule of receive
events: `KeyboardInterrupt` breaks the loop; any other exception (a failing
`recvfrom`, or anything raised while handling a datagram) is caught by
`except Exception`, printed, and the loop continues.  The result collects
every reply sent, in order. -/
def runListener (ips : List PyStr) (env : Env) : List Event → List Reply
  | [] => []
  | .keyboardInterrupt :: _ => []
  | .recvError :: rest => runListener ips env rest
  | .datagram data cip cp :: rest =>
    handleDatagram ips env data cip cp ++ runListener ips env rest

/-! ## Shared lemmas about the embedding -/

theorem toBytesBE_length (k n : Nat) : (toBytesBE k n).length = k := by
  induction k generalizing n with
  | zero => rfl
  | succ k ih => simp [toBytesBE, ih]

theorem fromBytesBE_toBytesBE2 (n : Nat) (h : n < 65536) :
    fromBytesBE (toBytesBE 2 n) = n := by
  simp only [toBytesBE, fromBytesBE, List.foldl]
  norm_num
  omega

theorem pongPingId_length (p : List Nat) : (pongPingId p).length = 8 := by
  unfold pongPingId
  split
  · simp only [List.length_take, List.length_drop]
    omega
  · exact toBytesBE_length 8 0

/-- The 33-byte header of every emitted pong. -/
theorem pongHeader_length (p : List Nat) (g : Nat) :
    (UNCONNECTED_PONG_ID :: pongPingId p ++ toBytesBE 8 g ++ magicBytes).length = 33 := by
  simp [pongPingId_length, toBytesBE_length, magicBytes]

theorem create_pong_packet_drop1_take8 (p : List Nat) (m : Option PyStr) (g port : Nat) :
    ((create_pong_packet p m g port).drop 1).take 8 = pongPingId p := by
  have h : (create_pong_packet p m g port).drop 1
      = pongPingId p ++ toBytesBE 8 g ++ magicBytes
          ++ toBytesBE 2 (utf8Encode (pongMotd m g port)).length
          ++ utf8Encode (pongMotd m g port) := rfl
  rw [h, List.append_assoc, List.append_assoc, List.append_assoc]
  exact List.take_left' (pongPingId_length p)

theorem create_pong_packet_drop33 (p : List Nat) (m : Option PyStr) (g port : Nat) :
    (create_pong_packet p m g port).drop 33 =
      toBytesBE 2 (utf8Encode (pongMotd m g port)).length
        ++ utf8Encode (pongMotd m g port) := by
  simp only [create_pong_packet]
  rw [show UNCONNECTED_PONG_ID :: pongPingId p ++ toBytesBE 8 g ++ magicBytes
        ++ toBytesBE 2 (utf8Encode (pongMotd m g port)).length
        ++ utf8Encode (pongMotd m g port)
      = (UNCONNECTED_PONG_ID :: pongPingId p ++ toBytesBE 8 g ++ magicBytes)
        ++ (toBytesBE 2 (utf8Encode (pongMotd m g port)).length
            ++ utf8Encode (pongMotd m g port)) from by simp]
  exact List.drop_left' (pongHeader_length p g)

/-- The reply (if any) the `for server_ip in ips_to_announce` body emits for
one candidate. -/
def replyOf (env : Env) (data : List Nat) (clientIp : PyStr) (clientPort : Nat)
    (server_ip : PyStr) : Option Reply :=
  match (query_local_server (env.probe server_ip)).1 with
  | some real_motd =>
    if real_motd.isEmpty then none
    else if env.replyBindOk server_ip then
      some { sourceIp := server_ip, sourcePort := BROADCAST_PORT,
             destIp := clientIp, destPort := clientPort,
             packet := create_pong_packet data (some real_motd)
                         (env.guidOf server_ip) 19132 }
    else none
  | none => none

/-- Whether the probe of one candidate yields a truthy (non-`None`,
non-empty) MOTD, i.e. passes `if real_motd:`. -/
def respondsTruthy (env : Env) (server_ip : PyStr) : Bool :=
  match (query_local_server (env.probe server_ip)).1 with
  | some m => !m.isEmpty
  | none => false

theorem handleCandidate_eq (env : Env) (data : List Nat) (cip : PyStr) (cp : Nat)
    (acc : List Reply) (ip : PyStr) :
    handleCandidate env data cip cp acc ip = acc ++ (replyOf env data cip cp ip).toList := by
  unfold handleCandidate replyOf
  cases (query_local_server (env.probe ip)).1 with
  | none => simp
  | some m =>
    by_cases h1 : m.isEmpty <;> by_cases h2 : env.replyBindOk ip <;> simp [h1, h2]

theorem foldl_handleCandidate (env : Env) (data : List Nat) (cip : PyStr) (cp : Nat)
    (l : List PyStr) :
    ∀ acc : List Reply,
      l.foldl (handleCandidate env data cip cp) acc =
        acc ++ l.filterMap (replyOf env data cip cp) := by
  induction l with
  | nil => simp
  | cons x xs ih =>
    intro acc
    rw [List.foldl_cons, handleCandidate_eq, ih, List.filterMap_cons]
    cases replyOf env data cip cp x <;> simp

theorem replyOf_eq_none (env : Env) (data : List Nat) (cip : PyStr) (cp : Nat)
    (ip : PyStr) (h : respondsTruthy env ip = false) :
    replyOf env data cip cp ip = none := by
  unfold replyOf
  unfold respondsTruthy at h
  cases hq : (query_local_server (env.probe ip)).1 with
  | none => rfl
  | some m =>
    rw [hq] at h
    simp at h
    simp [h]

theorem replyOf_eq_some (env : Env) (data : List Nat) (cip : PyStr) (cp : Nat)
    (ip : PyStr) (m : PyStr)
    (hresp : (query_local_server (env.probe ip)).1 = some m)
    (hM : m.isEmpty = false) (hbind : env.replyBindOk ip = true) :
    replyOf env data cip cp ip =
      some { sourceIp := ip, sourcePort := BROADCAST_PORT, destIp := cip, destPort := cp,
             packet := create_pong_packet data (some m) (env.guidOf ip) 19132 } := by
  unfold replyOf
  rw [hresp]
  simp [hM, hbind]

theorem filterMap_replyOf_single (env : Env) (data : List Nat) (cip : PyStr) (cp : Nat)
    (l : List PyStr) (ip0 : PyStr) (m : PyStr)
    (hone : l.filter (respondsTruthy env) = [ip0])
    (hresp : (query_local_server (env.probe ip0)).1 = some m)
    (hbind : env.replyBindOk ip0 = true) :
    l.filterMap (replyOf env data cip cp) =
      [{ sourceIp := ip0, sourcePort := BROADCAST_PORT, destIp := cip, destPort := cp,
         packet := create_pong_packet data (some m) (env.guidOf ip0) 19132 }] := by
  induction l with
  | nil => simp at hone
  | cons x xs ih =>
    rw [List.filter_cons] at hone
    by_cases hx : respondsTruthy env x
    · rw [if_pos hx] at hone
      have hx0 : x = ip0 := (List.cons_eq_cons.mp hone).1
      have hxs : xs.filter (respondsTruthy env) = [] := (List.cons_eq_cons.mp hone).2
      have hrest : xs.filterMap (replyOf env data cip cp) = [] := by
        rw [List.filterMap_eq_nil]
        intro a ha
        exact replyOf_eq_none env data cip cp a
          (by simpa using List.filter_eq_nil.mp hxs a ha)
      subst hx0
      have hM : m.isEmpty = false := by
        unfold respondsTruthy at hx
        rw [hresp] at hx
        simpa using hx
      rw [List.filterMap_cons, replyOf_eq_some env data cip cp x m hresp hM hbind, hrest]
    · rw [if_neg hx] at hone
      rw [List.filterMap_cons, replyOf_eq_none env data cip cp x (by simpa using hx)]
      exact ih hone

theorem handleDatagramE_ok (ips : List PyStr) (env : Env) (data : List Nat)
    (cip : PyStr) (cp : Nat) :
    handleDatagramE ips env data cip cp = .ok (handleDatagram ips env data cip cp) := by
  cases data with
  | nil => rfl
  | cons b rest =>
    unfold handleDatagram handleDatagramE pyIndex
    simp only [List.isEmpty_cons, List.length_cons, List.get?_eq_getElem?,
      List.getElem?_cons_zero]
    split
    · split
      · split <;> rfl
      · rfl
    · rfl

theorem handleDatagram_not_ping (ips : List PyStr) (env : Env) (data : List Nat)
    (cip : PyStr) (cp : Nat)
    (h : ∀ b, data.head? = some b → b ≠ 0x01 ∧ b ≠ 0x02) :
    handleDatagram ips env data cip cp = [] := by
  cases data with
  | nil => rfl
  | cons b rest =>
    have hb := h b rfl
    unfold handleDatagram handleDatagramE pyIndex
    simp [hb.1, hb.2]

theorem handleDatagram_recognized (ips : List PyStr) (env : Env) (b : Nat)
    (rest : List Nat) (cip : PyStr) (cp : Nat)
    (hb : b = 0x01 ∨ b = 0x02)
    (hc : ips.contains cip = false)
    (hl : List.isPrefixOf "127.".data cip = false) :
    handleDatagram ips env (b :: rest) cip cp =
      ips.filterMap (replyOf env (b :: rest) cip cp) := by
  unfold handleDatagram handleDatagramE pyIndex
  have hc' : cip ∉ ips := by simpa using hc
  simp [hb, hc', hl, foldl_handleCandidate]

theorem foldl_parseIfaceLine (l : List PyStr) :
    ∀ acc : List PyStr,
      l.foldl parseIfaceLine acc =
        acc ++ (l.filter (fun x => decide (2 ≤ (pySplit x).length))).map
          (fun x => beforeSlash (((pySplit x).get? 1).getD [])) := by
  induction l with
  | nil => simp
  | cons x xs ih =>
    intro acc
    rw [List.foldl_cons]
    by_cases hx : 2 ≤ (pySplit x).length
    · rw [show parseIfaceLine acc x = acc ++ [beforeSlash (((pySplit x).get? 1).getD [])]
          from by unfold parseIfaceLine; rw [if_pos hx],
        ih, List.filter_cons, if_pos (by simpa using hx), List.map_cons]
      simp
    · rw [show parseIfaceLine acc x = acc from by unfold parseIfaceLine; rw [if_neg hx],
        ih, List.filter_cons, if_neg (by simpa using hx)]

theorem query_reply_decode (b : Nat) (rest : List Nat)
    (hb : b = UNCONNECTED_PONG_ID) (hlen : 34 ≤ (b :: rest).length) :
    (query_local_server (ProbeOutcome.reply (b :: rest))).1 =
      utf8Decode (((b :: rest).drop 35).take
        (fromBytesBE (((b :: rest).drop 33).take 2))) := by
  unfold query_local_server queryBody
  have hgt : 33 < rest.length + 1 := by
    simp only [List.length_cons] at hlen
    omega
  rw [show ((b :: rest).drop 35) = rest.drop 34 from rfl,
    show ((b :: rest).drop 33) = rest.drop 32 from rfl]
  cases hdec : utf8Decode ((rest.drop 34).take (fromBytesBE ((rest.drop 32).take 2))) with
  | none => simp [hb, hgt, hdec]
  | some s => simp [hb, hgt, hdec]

/-! ## The claims -/

/-- C1 (amended): `main` does not retry with backoff: an empty
candidate-address set after the single resolution attempt makes the
process exit with status 1, a failed bind of the shared UDP socket
likewise exits with status 1, and only with candidates and a successful
bind does the process reach the listener loop. -/
theorem claim_C1 :
    (∀ (tips : List PyStr) (ifo : IfaceOutcome) (b : Bool),
       resolveIps tips ifo = [] → mainStartup tips ifo b = .exited 1) ∧
    (∀ (tips : List PyStr) (ifo : IfaceOutcome),
       resolveIps tips ifo ≠ [] → mainStartup tips ifo false = .exited 1) ∧
    (∀ (tips : List PyStr) (ifo : IfaceOutcome),
       resolveIps tips ifo ≠ [] →
         mainStartup tips ifo true = .listening (resolveIps tips ifo)) := by
  refine ⟨?_, ?_, ?_⟩
  · intro tips ifo b h
    unfold mainStartup
    simp [h]
  · intro tips ifo h
    have hf : (resolveIps tips ifo).isEmpty = false := by simp [h]
    unfold mainStartup
    simp [hf]
  · intro tips ifo h
    have hf : (resolveIps tips ifo).isEmpty = false := by simp [h]
    unfold mainStartup
    simp [hf]

/-- C1 counterexample: with no explicit targets and an unavailable
interface collaborator the candidate set is empty, and the process
terminates on its own with exit status 1 instead of backing off and
retrying. -/
theorem claim_C1_cex :
    mainStartup [] IfaceOutcome.unavailable true = StartupResult.exited 1 := by decide

/-- C1 witness: the three startup outcomes at concrete inputs. -/
theorem claim_C1_witness :
    mainStartup [] IfaceOutcome.unavailable false = StartupResult.exited 1 ∧
    mainStartup ["192.168.71.200".data] IfaceOutcome.unavailable false
      = StartupResult.exited 1 ∧
    mainStartup ["192.168.71.200".data] IfaceOutcome.unavailable true
      = StartupResult.listening ["192.168.71.200".data] :=
  ⟨claim_C1.1 [] IfaceOutcome.unavailable false (by decide),
   claim_C1.2.1 ["192.168.71.200".data] IfaceOutcome.unavailable (by decide),
   claim_C1.2.2 ["192.168.71.200".data] IfaceOutcome.unavailable (by decide)⟩

/-- C2 (amended): a datagram is treated as a ping iff it is non-empty and
its first byte is 0x01 or 0x02 — the listener checks neither a minimum
length nor the 16-byte magic; when a pong is built, its 8-byte token field
is bytes 1..8 of the datagram if the datagram has at least 9 bytes, and
eight zero bytes otherwise. -/
theorem claim_C2 :
    (∀ (ips : List PyStr) (env : Env) (data : List Nat) (cip : PyStr) (cp : Nat),
       (∀ b, data.head? = some b → b ≠ 0x01 ∧ b ≠ 0x02) →
       handleDatagram ips env data cip cp = []) ∧
    (∀ (p : List Nat) (m : Option PyStr) (g port : Nat), 9 ≤ p.length →
       ((create_pong_packet p m g port).drop 1).take 8 = (p.drop 1).take 8) ∧
    (∀ (p : List Nat) (m : Option PyStr) (g port : Nat), p.length < 9 →
       ((create_pong_packet p m g port).drop 1).take 8 = List.replicate 8 0) := by
  refine ⟨fun ips env data cip cp h => handleDatagram_not_ping ips env data cip cp h, ?_, ?_⟩
  · intro p m g port hp
    rw [create_pong_packet_drop1_take8]
    unfold pongPingId
    rw [if_pos hp]
  · intro p m g port hp
    rw [create_pong_packet_drop1_take8]
    unfold pongPingId
    rw [if_neg (by omega)]
    rfl

/-- C2 counterexample: a one-byte datagram `[0x01]` is shorter than any
minimum ping length and carries no magic, yet with a responsive candidate
the listener recognizes it and emits a reply, against the claim that such
a datagram is silently dropped. -/
theorem claim_C2_cex :
    handleDatagram ["192.168.71.200".data]
      { probe := fun _ => ProbeOutcome.reply ([0x1C] ++ List.replicate 32 0 ++ [0, 1, 65]),
        guidOf := fun _ => 0, replyBindOk := fun _ => true }
      [0x01] "192.168.70.1".data 5000 ≠ [] := by decide

/-- C2 witness: the three parts at concrete inputs. -/
theorem claim_C2_witness :
    handleDatagram []
      { probe := fun _ => ProbeOutcome.timeout, guidOf := fun _ => 0,
        replyBindOk := fun _ => true } [0x1C, 0] [] 0 = [] ∧
    ((create_pong_packet [1, 2, 3, 4, 5, 6, 7, 8, 9, 10] (some ['A']) 7 19132).drop 1).take 8
      = [2, 3, 4, 5, 6, 7, 8, 9] ∧
    ((create_pong_packet [1, 0xAA] (some ['A']) 7 19132).drop 1).take 8
      = List.replicate 8 0 := by
  refine ⟨?_, ?_, claim_C2.2.2 [1, 0xAA] (some ['A']) 7 19132 (by decide)⟩
  · exact claim_C2.1 _ _ _ _ _ (by intro b hb; simp at hb; subst hb; decide)
  · rw [claim_C2.2.1 [1, 2, 3, 4, 5, 6, 7, 8, 9, 10] (some ['A']) 7 19132 (by decide)]
    decide

/-- C3 (amended): when the ping payload carries fewer than 8 token bytes
(payload shorter than 9 bytes) the emitted token field is eight zero
bytes — the partial token is discarded entirely, not kept as a prefix and
zero-padded. -/
theorem claim_C3 (p : List Nat) (m : Option PyStr) (g port : Nat) (h : p.length < 9) :
    ((create_pong_packet p m g port).drop 1).take 8 = List.replicate 8 0 := by
  rw [create_pong_packet_drop1_take8]
  unfold pongPingId
  rw [if_neg (by omega)]
  rfl

/-- C3 counterexample: for the 2-byte payload `[0x01, 0xAA]` the claim
predicts the token field `AA 00 00 00 00 00 00 00`; the code emits eight
zero bytes instead. -/
theorem claim_C3_cex :
    ((create_pong_packet [0x01, 0xAA] (some ['A']) 0 19132).drop 1).take 8
      ≠ 0xAA :: List.replicate 7 0 := by decide

/-- C3 witness. -/
theorem claim_C3_witness :
    ((create_pong_packet [0x01, 0xAA] (some ['A']) 0 19132).drop 1).take 8
      = List.replicate 8 0 :=
  claim_C3 [0x01, 0xAA] (some ['A']) 0 19132 (by decide)

/-- C4 (amended): for an inbound ping from a non-candidate, non-loopback
client, when exactly one configured candidate answers the backend probe
with a non-empty status string (and the spoofed reply socket for it binds
and sends successfully), exactly one pong is emitted, sourced from that
candidate towards the client; unreachable candidates, and candidates
answering with the empty status string, produce no reply and no
synthesized placeholder. -/
theorem claim_C4 (ips : List PyStr) (env : Env) (b : Nat) (rest : List Nat)
    (cip : PyStr) (cp : Nat) (ip0 : PyStr) (m : PyStr)
    (hb : b = 0x01 ∨ b = 0x02)
    (hc : cip ∉ ips)
    (hl : List.isPrefixOf "127.".data cip = false)
    (hone : ips.filter (respondsTruthy env) = [ip0])
    (hresp : (query_local_server (env.probe ip0)).1 = some m)
    (hbind : env.replyBindOk ip0 = true) :
    handleDatagram ips env (b :: rest) cip cp =
      [{ sourceIp := ip0, sourcePort := BROADCAST_PORT, destIp := cip, destPort := cp,
         packet := create_pong_packet (b :: rest) (some m) (env.guidOf ip0) 19132 }] := by
  rw [handleDatagram_recognized ips env b rest cip cp hb
    (by simp [List.contains, List.elem_eq_mem, hc]) hl]
  exact filterMap_replyOf_single env (b :: rest) cip cp ips ip0 m hone hresp hbind

/-- C4 counterexample: one configured candidate whose backend answers the
probe with the empty status string: the claim predicts exactly one pong,
but the code's truthiness test `if real_motd:` drops the reply, so none is
emitted. -/
theorem claim_C4_cex :
    handleDatagram ["192.168.71.200".data]
      { probe := fun _ => ProbeOutcome.reply ([0x1C] ++ List.replicate 32 0 ++ [0, 0]),
        guidOf := fun _ => 0, replyBindOk := fun _ => true }
      [0x01] "192.168.70.9".data 54321 = [] := by decide

/-- C4 witness: two candidates, the first unreachable, the second
answering `"A"`; exactly one pong, sourced from the second. -/
theorem claim_C4_witness :
    handleDatagram ["192.168.71.200".data, "192.168.71.201".data]
      { probe := fun ip => if ip = "192.168.71.201".data
          then ProbeOutcome.reply ([0x1C] ++ List.replicate 32 0 ++ [0, 1, 65])
          else ProbeOutcome.timeout,
        guidOf := fun _ => 3, replyBindOk := fun _ => true }
      [0x01] "192.168.70.50".data 61000
      = [{ sourceIp := "192.168.71.201".data, sourcePort := BROADCAST_PORT,
           destIp := "192.168.70.50".data, destPort := 61000,
           packet := create_pong_packet [0x01] (some ['A']) 3 19132 }] :=
  claim_C4 ["192.168.71.200".data, "192.168.71.201".data] _ 0x01 []
    "192.168.70.50".data 61000 "192.168.71.201".data ['A']
    (Or.inl rfl) (by decide) (by decide) (by decide) (by decide) (by decide)

/-- C5: a ping whose sender address is one of the known candidate
addresses, or starts with `127.` (loopback), never produces any outbound
reply. -/
theorem claim_C5 (ips : List PyStr) (env : Env) (data : List Nat)
    (cip : PyStr) (cp : Nat)
    (h : cip ∈ ips ∨ List.isPrefixOf "127.".data cip = true) :
    handleDatagram ips env data cip cp = [] := by
  cases data with
  | nil => rfl
  | cons b rest =>
    unfold handleDatagram handleDatagramE pyIndex
    have hg : (ips.contains cip || List.isPrefixOf "127.".data cip) = true := by
      cases h with
      | inl hm => simp [List.contains, List.elem_eq_mem, hm]
      | inr hp => simp [hp]
    simp only [hg]
    simp

/-- C5 witness: a responsive candidate environment, but the ping comes
from the candidate address itself (and, second part, from loopback): no
reply. -/
theorem claim_C5_witness :
    handleDatagram ["192.168.71.200".data]
      { probe := fun _ => ProbeOutcome.reply ([0x1C] ++ List.replicate 32 0 ++ [0, 1, 65]),
        guidOf := fun _ => 0, replyBindOk := fun _ => true }
      [0x01] "192.168.71.200".data 5000 = [] ∧
    handleDatagram ["192.168.71.200".data]
      { probe := fun _ => ProbeOutcome.reply ([0x1C] ++ List.replicate 32 0 ++ [0, 1, 65]),
        guidOf := fun _ => 0, replyBindOk := fun _ => true }
      [0x01] "127.0.0.1".data 5000 = [] :=
  ⟨claim_C5 _ _ _ _ _ (Or.inl (by decide)),
   claim_C5 _ _ _ _ _ (Or.inr (by decide))⟩

/-- C6: handling one datagram never raises out of the listener loop — the
handler body returns normally on every input (its only indexing is guarded
by the truthiness test, and the `except Exception` clause would demote any
error), and the loop goes on to process every subsequent event: over any
schedule without a `KeyboardInterrupt` prefix, the replies of a prefix and
a suffix concatenate. -/
theorem claim_C6 :
    (∀ (ips : List PyStr) (env : Env) (data : List Nat) (cip : PyStr) (cp : Nat),
       handleDatagramE ips env data cip cp
         = Except.ok (handleDatagram ips env data cip cp)) ∧
    (∀ (ips : List PyStr) (env : Env) (es₁ es₂ : List Event),
       (∀ e ∈ es₁, e ≠ Event.keyboardInterrupt) →
       runListener ips env (es₁ ++ es₂)
         = runListener ips env es₁ ++ runListener ips env es₂) := by
  refine ⟨handleDatagramE_ok, ?_⟩
  intro ips env es₁ es₂ h
  induction es₁ with
  | nil => simp [runListener]
  | cons e rest ih =>
    have hrest : ∀ x ∈ rest, x ≠ Event.keyboardInterrupt :=
      fun x hx => h x (List.mem_cons_of_mem _ hx)
    cases e with
    | keyboardInterrupt => exact absurd rfl (h _ (List.mem_cons_self _ _))
    | recvError =>
      simp only [List.cons_append, runListener]
      exact ih hrest
    | datagram d a p =>
      simp only [List.cons_append, runListener, List.append_eq]
      rw [ih hrest, List.append_assoc]

/-- C6 witness: an empty datagram, a truncated one-byte ping, and a
34-byte ping with a corrupted magic are each handled without error, and a
schedule containing all three followed by further traffic is processed
whole. -/
theorem claim_C6_witness :
    handleDatagramE ["192.168.71.200".data]
      { probe := fun _ => ProbeOutcome.timeout, guidOf := fun _ => 0,
        replyBindOk := fun _ => true } [] "192.168.70.1".data 7 = Except.ok [] ∧
    handleDatagramE ["192.168.71.200".data]
      { probe := fun _ => ProbeOutcome.timeout, guidOf := fun _ => 0,
        replyBindOk := fun _ => true } [0x01] "192.168.70.1".data 7 = Except.ok [] ∧
    handleDatagramE ["192.168.71.200".data]
      { probe := fun _ => ProbeOutcome.timeout, guidOf := fun _ => 0,
        replyBindOk := fun _ => true }
      ([0x01] ++ List.replicate 8 0 ++ List.replicate 16 0xEE ++ List.replicate 8 0 ++ [0])
      "192.168.70.1".data 7 = Except.ok [] ∧
    runListener ["192.168.71.200".data]
      { probe := fun _ => ProbeOutcome.timeout, guidOf := fun _ => 0,
        replyBindOk := fun _ => true }
      ([Event.datagram [] "192.168.70.1".data 7,
        Event.datagram [0x01] "192.168.70.1".data 7,
        Event.recvError] ++ [Event.datagram [0x03] "192.168.70.1".data 7])
      = runListener ["192.168.71.200".data]
          { probe := fun _ => ProbeOutcome.timeout, guidOf := fun _ => 0,
            replyBindOk := fun _ => true }
          [Event.datagram [] "192.168.70.1".data 7,
           Event.datagram [0x01] "192.168.70.1".data 7,
           Event.recvError]
        ++ runListener ["192.168.71.200".data]
            { probe := fun _ => ProbeOutcome.timeout, guidOf := fun _ => 0,
              replyBindOk := fun _ => true }
            [Event.datagram [0x03] "192.168.70.1".data 7] := by
  refine ⟨?_, ?_, ?_, claim_C6.2 _ _ _ _ ?_⟩
  · exact (claim_C6.1 _ _ _ _ _).trans (congrArg Except.ok (by decide))
  · exact (claim_C6.1 _ _ _ _ _).trans (congrArg Except.ok (by decide))
  · exact (claim_C6.1 _ _ _ _ _).trans (congrArg Except.ok (by decide))
  · intro e he
    simp only [List.mem_cons, List.not_mem_nil, or_false] at he
    rcases he with rfl | rfl | rfl <;> intro hk <;> cases hk

/-- C7: the Backend Prober returns `None` (Unreachable) on a timeout, on
any transport error, and on a malformed reply (wrong discriminant, too
short, or an undecodable status slice), never raising to the caller; and
the transient probe socket is closed on every exit path, the success path
included. -/
theorem claim_C7 :
    (∀ o : ProbeOutcome, (query_local_server o).2 = true) ∧
    ((query_local_server ProbeOutcome.timeout).1 = none ∧
     (query_local_server ProbeOutcome.transportError).1 = none) ∧
    (∀ data : List Nat,
       (data.head? ≠ some UNCONNECTED_PONG_ID ∨ data.length ≤ 33 ∨
         utf8Decode ((data.drop 35).take (fromBytesBE ((data.drop 33).take 2))) = none) →
       (query_local_server (ProbeOutcome.reply data)).1 = none) := by
  refine ⟨?_, ⟨rfl, rfl⟩, ?_⟩
  · intro o
    unfold query_local_server
    cases queryBody o <;> rfl
  · intro data h
    cases data with
    | nil => rfl
    | cons b rest =>
      rcases h with h | h | h
      · have hb : ¬b = UNCONNECTED_PONG_ID := by simpa using h
        unfold query_local_server queryBody
        simp [hb]
      · have hb : ¬(33 < rest.length + 1) := by
          simp only [List.length_cons] at h
          omega
        unfold query_local_server queryBody
        simp [hb]
      · by_cases hb : b = UNCONNECTED_PONG_ID
        · by_cases hlen : 34 ≤ (b :: rest).length
          · rw [query_reply_decode b rest hb hlen, h]
          · have hb2 : ¬(33 < rest.length + 1) := by
              simp only [List.length_cons] at hlen
              omega
            unfold query_local_server queryBody
            simp [hb2]
        · unfold query_local_server queryBody
          simp [hb]

/-- C7 witness: socket closed on the success path, `None` on timeout, and
`None` on a reply with a wrong discriminant. -/
theorem claim_C7_witness :
    (query_local_server (ProbeOutcome.reply
      ([0x1C] ++ List.replicate 32 0 ++ [0, 1, 65]))).2 = true ∧
    (query_local_server ProbeOutcome.timeout).1 = none ∧
    (query_local_server (ProbeOutcome.reply [0x05])).1 = none :=
  ⟨claim_C7.1 _, claim_C7.2.1.1, claim_C7.2.2 [0x05] (Or.inl (by decide))⟩

/-- C8 (amended): `get_local_interfaces_ips` keeps exactly the collaborator
lines textually containing `inet 192.168.71.`, extracts the address before
the `/` of each line's second whitespace-separated field, preserving order
and duplicates (there is no de-duplication), and returns the empty list —
never an error — when the collaborator is unavailable or no line
matches. -/
theorem claim_C8 :
    get_local_interfaces_ips IfaceOutcome.unavailable = [] ∧
    (∀ lines : List PyStr,
       (∀ l ∈ lines, containsPattern SUBNET_PATTERN l = false) →
       get_local_interfaces_ips (IfaceOutcome.output lines) = []) ∧
    (∀ lines : List PyStr,
       get_local_interfaces_ips (IfaceOutcome.output lines) =
         ((lines.filter (fun l => containsPattern SUBNET_PATTERN l)).filter
             (fun l => decide (2 ≤ (pySplit l).length))).map
           (fun l => beforeSlash (((pySplit l).get? 1).getD []))) := by
  refine ⟨rfl, ?_, ?_⟩
  · intro lines h
    have hf : lines.filter (fun l => containsPattern SUBNET_PATTERN l) = [] := by
      rw [List.filter_eq_nil]
      intro a ha
      simp [h a ha]
    simp [get_local_interfaces_ips, hf]
  · intro lines
    by_cases hm : (lines.filter (fun l => containsPattern SUBNET_PATTERN l)).isEmpty
    · have hf : lines.filter (fun l => containsPattern SUBNET_PATTERN l) = [] :=
        List.isEmpty_iff.mp hm
      simp [get_local_interfaces_ips, hf]
    · simp only [get_local_interfaces_ips]
      rw [if_neg hm, foldl_parseIfaceLine]
      simp

/-- C8 counterexample: when the collaborator reports the same alias line
twice, both copies survive: the result has duplicates, so the function
does not de-duplicate. -/
theorem claim_C8_cex :
    get_local_interfaces_ips (IfaceOutcome.output
      ["    inet 192.168.71.200/22 brd 192.168.71.255 scope global eth0:0".data,
       "    inet 192.168.71.200/22 brd 192.168.71.255 scope global eth0:0".data])
      = ["192.168.71.200".data, "192.168.71.200".data] ∧
    ¬ (get_local_interfaces_ips (IfaceOutcome.output
        ["    inet 192.168.71.200/22 brd 192.168.71.255 scope global eth0:0".data,
         "    inet 192.168.71.200/22 brd 192.168.71.255 scope global eth0:0".data])).Nodup := by
  exact ⟨by decide, by decide⟩

/-- C8 witness: unavailable collaborator, a non-matching line, and a
matching two-line output. -/
theorem claim_C8_witness :
    get_local_interfaces_ips IfaceOutcome.unavailable = [] ∧
    get_local_interfaces_ips (IfaceOutcome.output ["    inet 10.0.0.5/8 brd".data]) = [] ∧
    get_local_interfaces_ips (IfaceOutcome.output
        ["    inet 192.168.71.201/22 brd".data]) = ["192.168.71.201".data] := by
  refine ⟨claim_C8.1, claim_C8.2.1 _ (by decide), ?_⟩
  rw [claim_C8.2.2 ["    inet 192.168.71.201/22 brd".data]]
  decide

/-- C9 (amended): for every payload and every non-empty status string
whose UTF-8 encoding is shorter than 2^16 bytes, the emitted pong's 2-byte
big-endian length field equals the byte length of the UTF-8 encoding of
the status string, and the bytes after the length field are exactly that
encoding; an empty (falsy) status string is instead replaced by the
generic placeholder MOTD. -/
theorem claim_C9 (p : List Nat) (g port : Nat) (m : PyStr)
    (hm : m.isEmpty = false) (hlen : (utf8Encode m).length < 65536) :
    ((create_pong_packet p (some m) g port).drop 33).take 2
        = toBytesBE 2 (utf8Encode m).length ∧
    fromBytesBE (((create_pong_packet p (some m) g port).drop 33).take 2)
        = (utf8Encode m).length ∧
    (create_pong_packet p (some m) g port).drop 35 = utf8Encode m := by
  have hmm : pongMotd (some m) g port = m := by
    simp [pongMotd, hm]
  have h33 := create_pong_packet_drop33 p (some m) g port
  rw [hmm] at h33
  have htake : ((create_pong_packet p (some m) g port).drop 33).take 2
      = toBytesBE 2 (utf8Encode m).length := by
    rw [h33]
    exact List.take_left' (toBytesBE_length 2 _)
  refine ⟨htake, ?_, ?_⟩
  · rw [htake]
    exact fromBytesBE_toBytesBE2 _ hlen
  · have hd : (create_pong_packet p (some m) g port).drop 35
        = ((create_pong_packet p (some m) g port).drop 33).drop 2 :=
      (List.drop_drop 2 33 _).symm
    rw [hd, h33]
    exact List.drop_left' (toBytesBE_length 2 _)

/-- C9 counterexample: for the empty status string the claim predicts a
zero length field and no trailing bytes (`drop 33 = [00 00]`); the code
substitutes the generic placeholder MOTD instead. -/
theorem claim_C9_cex :
    (create_pong_packet [] (some []) 0 19132).drop 33 ≠ [0, 0] := by decide

/-- C9 witness: status string `"A"`. -/
theorem claim_C9_witness :
    ((create_pong_packet [] (some ['A']) 0 19132).drop 33).take 2
        = toBytesBE 2 (utf8Encode ['A']).length ∧
    fromBytesBE (((create_pong_packet [] (some ['A']) 0 19132).drop 33).take 2)
        = (utf8Encode ['A']).length ∧
    (create_pong_packet [] (some ['A']) 0 19132).drop 35 = utf8Encode ['A'] :=
  claim_C9 [] 0 19132 ['A'] (by decide) (by decide)

/-- C10 (amended): the prober's pong decoder reads only the first byte and
the bytes from offset 33 on — the token and magic in between are never
inspected; for a buffer with first byte 0x1C and at least 34 bytes the
result is the UTF-8 decoding of the declared-length slice, which Python
slicing silently truncates to the bytes actually present when the declared
length exceeds them; if those bytes are not valid UTF-8 the probe returns
`None` (Unreachable) instead of a status string. -/
theorem claim_C10 :
    (∀ d₁ d₂ : List Nat, d₁.head? = d₂.head? → d₁.drop 33 = d₂.drop 33 →
       query_local_server (ProbeOutcome.reply d₁)
         = query_local_server (ProbeOutcome.reply d₂)) ∧
    (∀ d : List Nat, d.head? = some UNCONNECTED_PONG_ID → 34 ≤ d.length →
       (query_local_server (ProbeOutcome.reply d)).1 =
         utf8Decode ((d.drop 35).take (fromBytesBE ((d.drop 33).take 2)))) ∧
    (∀ d : List Nat, d.head? = some UNCONNECTED_PONG_ID → 34 ≤ d.length →
       d.length - 35 < fromBytesBE ((d.drop 33).take 2) →
       (query_local_server (ProbeOutcome.reply d)).1 = utf8Decode (d.drop 35)) := by
  refine ⟨?_, ?_, ?_⟩
  · intro d₁ d₂ h1 h2
    unfold query_local_server
    suffices h : queryBody (ProbeOutcome.reply d₁) = queryBody (ProbeOutcome.reply d₂) by
      rw [h]
    have hE : d₁.isEmpty = d₂.isEmpty := by
      cases d₁ <;> cases d₂ <;> simp_all
    have hH : d₁.headD 0 = d₂.headD 0 := by
      rw [List.headD_eq_head?, List.headD_eq_head?, h1]
    have hiff : d₁.length > 33 ↔ d₂.length > 33 := by
      rw [gt_iff_lt, gt_iff_lt, ← Nat.not_le, ← Nat.not_le,
        ← List.drop_eq_nil_iff_le, ← List.drop_eq_nil_iff_le, h2]
    have h35 : d₁.drop (33 + 2) = d₂.drop (33 + 2) := by
      rw [← List.drop_drop, ← List.drop_drop, h2]
    simp only [queryBody]
    rw [hE, hH]
    by_cases hc : d₂.isEmpty = false ∧ d₂.headD 0 = UNCONNECTED_PONG_ID
    · rw [if_pos hc, if_pos hc]
      by_cases hL : d₂.length > 33
      · rw [if_pos hL, if_pos (hiff.mpr hL), h2, h35]
      · rw [if_neg hL, if_neg (fun hh => hL (hiff.mp hh))]
    · rw [if_neg hc, if_neg hc]
  · intro d hd h34
    cases d with
    | nil => simp at hd
    | cons b rest =>
      have hb : b = UNCONNECTED_PONG_ID := by simpa using hd
      exact query_reply_decode b rest hb h34
  · intro d hd h34 hover
    cases d with
    | nil => simp at hd
    | cons b rest =>
      have hb : b = UNCONNECTED_PONG_ID := by simpa using hd
      rw [query_reply_decode b rest hb h34]
      have : ((b :: rest).drop 35).take (fromBytesBE (((b :: rest).drop 33).take 2))
          = (b :: rest).drop 35 := by
        apply List.take_of_length_le
        rw [List.length_drop]
        omega
      rw [this]

/-- C10 counterexample: a 36-byte buffer with first byte 0x1C whose status
slice is the invalid UTF-8 byte 0xFF: the decoder does not return a status
string — the probe yields `None`. -/
theorem claim_C10_cex :
    (query_local_server (ProbeOutcome.reply
      ([0x1C] ++ List.replicate 32 0 ++ [0, 1, 0xFF]))).1 = none := by decide

/-- C10 witness: magic/token bytes are irrelevant, the declared length is
truncated to the available bytes, and a valid slice decodes. -/
theorem claim_C10_witness :
    query_local_server (ProbeOutcome.reply
        ([0x1C] ++ List.replicate 32 0 ++ [0, 1, 65]))
      = query_local_server (ProbeOutcome.reply
        ([0x1C] ++ List.replicate 16 0xAB ++ List.replicate 16 0xCD ++ [0, 1, 65])) ∧
    (query_local_server (ProbeOutcome.reply
        ([0x1C] ++ List.replicate 32 0 ++ [0, 9, 65]))).1
      = utf8Decode (([0x1C] ++ List.replicate 32 0 ++ [0, 9, 65]).drop 35) := by
  refine ⟨claim_C10.1 _ _ (by decide) (by decide), claim_C10.2.2 _ (by decide) (by decide) (by decide)⟩

end LanFix
